import Mathlib

/-!
Verification development for the egui-multiwin window-orchestration core.

The definitions below are a shallow embedding of the macro-generated
`tracked_window` / `multi_window` modules of
`src/egui-multiwin/src/multi_window.rs` (the final, viewport-aware
generation of the code).  Native window identifiers, viewport identifiers
and instants are modelled as `Nat`; `std::time::Duration` values are
modelled as `Nat` nanoseconds (`as_millis` is division by 1000000,
`is_zero` is equality with 0).  Rust panics are modelled by returning
`none` from the corresponding function.  External collaborators (the UI
library's frame output, the success of `swap_buffers`, the repaint hint of
`on_window_event`, the current instant) are inputs gathered in an `Env`
structure.
-/

namespace EguiMultiwin

/-- `winit::event_loop::ControlFlow`: the schedule policy a window may
request.  Instants are modelled as `Nat`. -/
inductive ControlFlow : Type where
  | Poll : ControlFlow
  | Wait : ControlFlow
  | WaitUntil : Nat → ControlFlow
deriving DecidableEq, Repr

/-- One step of the control-flow merge loop in `MultiWindow::run`
(multi_window.rs lines 1000-1020): `flow` is the running result,
`flow_request` one window's requested flow. -/
def mergeStep (flow : ControlFlow) (flow_request : ControlFlow) : ControlFlow :=
  match flow_request with
  | ControlFlow.Poll => ControlFlow.Poll
  | ControlFlow.Wait => flow
  | ControlFlow.WaitUntil when_new =>
    match flow with
    | ControlFlow.Poll => ControlFlow.Poll
    | ControlFlow.WaitUntil when_current =>
      if when_new < when_current then ControlFlow.WaitUntil when_new
      else ControlFlow.WaitUntil when_current
    | ControlFlow.Wait => ControlFlow.WaitUntil when_new

/-- The control-flow merge of `MultiWindow::run` (multi_window.rs lines
996-1023): start from `Wait`, fold the per-window requests; `none`
entries (a window that terminated) are skipped by the
`if let Some(flow_request)` in the source. -/
def merge_flows (l : List (Option ControlFlow)) : ControlFlow :=
  l.foldl
    (fun flow o =>
      match o with
      | some flow_request => mergeStep flow flow_request
      | none => flow)
    ControlFlow.Wait

/-- The instants of the `WaitUntil` entries of a flow-request list. -/
def waitTimes (l : List (Option ControlFlow)) : List Nat :=
  l.filterMap (fun o =>
    match o with
    | some (ControlFlow.WaitUntil t) => some t
    | _ => none)

mutual

/-- The window-type state (`$window`): the user-supplied `TrackedWindow`
implementation is modelled by the values its trait methods return —
`is_root`, `can_quit`, the `RedrawResponse` of `custom_event` and the
`RedrawResponse` of `redraw`. -/
inductive WindowData : Type where
  | mk : Bool → Bool → RedrawResponse → RedrawResponse → WindowData

/-- `RedrawResponse` (tracked_window macro lines 70-84): a quit flag and a
list of windows the window desires to have created. -/
inductive RedrawResponse : Type where
  | mk : Bool → List NewWindowRequest → RedrawResponse

/-- `NewWindowRequest` (multi_window macro lines 1040-1057): fields
`window_state`, `builder` (the winit window builder, abstracted to a
`Nat` description), `id` (identity token), `viewport` (the optional
`ViewportBuilder`, abstracted to a `Nat` description), `viewport_id`,
`viewportset` (the value of the shared viewport registry), and
`viewport_callback` (the deferred-render callback, abstracted to a `Nat`
identity).  `options` carries no claim-relevant data and is omitted. -/
inductive NewWindowRequest : Type where
  | mk : Option WindowData → Nat → Nat → Option Nat → Option Nat → List Nat →
    Option Nat → NewWindowRequest

end

/-- `TrackedWindow::is_root`. -/
def WindowData.is_root : WindowData → Bool
  | WindowData.mk r _ _ _ => r

/-- `TrackedWindow::can_quit` (modelled as a pure predicate of the window
state). -/
def WindowData.can_quit : WindowData → Bool
  | WindowData.mk _ q _ _ => q

/-- The response `TrackedWindow::custom_event` returns. -/
def WindowData.custom_response : WindowData → RedrawResponse
  | WindowData.mk _ _ cr _ => cr

/-- The response `TrackedWindow::redraw` returns. -/
def WindowData.redraw_response : WindowData → RedrawResponse
  | WindowData.mk _ _ _ rr => rr

/-- `RedrawResponse.quit`. -/
def RedrawResponse.quit : RedrawResponse → Bool
  | RedrawResponse.mk q _ => q

/-- `RedrawResponse.new_windows`. -/
def RedrawResponse.new_windows : RedrawResponse → List NewWindowRequest
  | RedrawResponse.mk _ w => w

/-- `Default for RedrawResponse`: quit false, no new windows. -/
def RedrawResponse.default : RedrawResponse := RedrawResponse.mk false []

/-- `NewWindowRequest.window_state`. -/
def NewWindowRequest.window_state : NewWindowRequest → Option WindowData
  | NewWindowRequest.mk w _ _ _ _ _ _ => w

/-- `NewWindowRequest.builder`. -/
def NewWindowRequest.builder : NewWindowRequest → Nat
  | NewWindowRequest.mk _ b _ _ _ _ _ => b

/-- `NewWindowRequest.id` (the identity token). -/
def NewWindowRequest.id : NewWindowRequest → Nat
  | NewWindowRequest.mk _ _ i _ _ _ _ => i

/-- `NewWindowRequest.viewport` (the optional viewport builder). -/
def NewWindowRequest.viewport : NewWindowRequest → Option Nat
  | NewWindowRequest.mk _ _ _ v _ _ _ => v

/-- `NewWindowRequest.viewport_id`. -/
def NewWindowRequest.viewport_id : NewWindowRequest → Option Nat
  | NewWindowRequest.mk _ _ _ _ v _ _ => v

/-- `NewWindowRequest.viewportset` (the shared registry, by value). -/
def NewWindowRequest.viewportset : NewWindowRequest → List Nat
  | NewWindowRequest.mk _ _ _ _ _ s _ => s

/-- `NewWindowRequest.viewport_callback`. -/
def NewWindowRequest.viewport_callback : NewWindowRequest → Option Nat
  | NewWindowRequest.mk _ _ _ _ _ _ c => c

/-- `NewWindowRequest::new_viewport` (multi_window macro lines 1079-1098):
a viewport request has no window state, and records the builder, token,
viewport builder, viewport id, shared registry and callback. -/
def NewWindowRequest.new_viewport (builder : Nat) (id : Nat)
    (vp_builder : Nat) (vp_id : Nat) (viewportset : List Nat)
    (vpcb : Option Nat) : NewWindowRequest :=
  NewWindowRequest.mk none builder id (some vp_builder) (some vp_id)
    viewportset vpcb

/-- `IndeterminateWindowedContext` (multi_window macro lines 746-754):
the graphics-context holder of a container, carrying the native window id
in the two non-empty states.  `NoContext` is the empty placeholder
(`IndeterminateWindowedContext::None`). -/
inductive IndeterminateWindowedContext : Type where
  | PossiblyCurrent : Nat → IndeterminateWindowedContext
  | NotCurrent : Nat → IndeterminateWindowedContext
  | NoContext : IndeterminateWindowedContext
deriving DecidableEq, Repr

/-- Boolean observer: is the holder in the `PossiblyCurrent` state? -/
def IndeterminateWindowedContext.isPossiblyCurrent :
    IndeterminateWindowedContext → Bool
  | IndeterminateWindowedContext.PossiblyCurrent _ => true
  | _ => false

/-- Boolean observer: is the holder the empty placeholder? -/
def IndeterminateWindowedContext.isNoContext :
    IndeterminateWindowedContext → Bool
  | IndeterminateWindowedContext.NoContext => true
  | _ => false

/-- `TrackedWindowContainer` with its `CommonWindowData` flattened
(multi_window macro lines 376-413): `window = some d` is the
`PlainWindow` variant carrying the window-type state `d`; `window = none`
is the pure `Viewport` variant.  `egui` records whether the lazily
created `EguiGlow` instance exists; `viewportset` is the value of the
shared viewport registry; `vb` the optional viewport builder. -/
structure TrackedWindowContainer : Type where
  gl_window : IndeterminateWindowedContext
  egui : Option Unit
  window : Option WindowData
  viewportset : List Nat
  viewportid : Nat
  viewportcb : Option Nat
  vb : Option Nat

/-- One frame's output record for one viewport id
(`egui` `ViewportOutput`): the requested repaint delay (nanoseconds), the
viewport builder description, and the optional deferred-render
callback. -/
structure ViewportOutput : Type where
  repaint_delay : Nat
  builder : Nat
  viewport_ui_cb : Option Nat
deriving DecidableEq, Repr

/-- The root viewport id (`egui::viewport::ViewportId::ROOT`). -/
def ROOT_ID : Nat := 0

/-- The external collaborators' behaviour during one dispatch:
`frame_output` is the per-viewport output map the UI library's
`end_frame` produces; `swap_ok` tells whether `swap_buffers` succeeds;
`now` is `Instant::now()`; `egui_repaint` is the repaint hint
`on_window_event` returns. -/
structure Env : Type where
  frame_output : List (Nat × ViewportOutput)
  swap_ok : Bool
  now : Nat
  egui_repaint : Bool

/-- An event of the host loop (`winit::event::Event`), restricted to the
variants the dispatch code distinguishes.  A `UserEvent` carries the
optional target window id its `window_id()` method reports. -/
inductive WEvent : Type where
  | Resized : Nat → Nat → WEvent
  | CloseRequested : WEvent
  | RedrawRequested : WEvent
  | OtherWindowEvent : WEvent
deriving DecidableEq, Repr

/-- The event union dispatched by the loop. -/
inductive MEvent : Type where
  | UserEvent : Option Nat → MEvent
  | WindowEvent : Nat → WEvent → MEvent
  | LoopExiting : MEvent
  | OtherEvent : MEvent
deriving DecidableEq, Repr

/-- `TrackedWindowControl` (multi_window macro lines 768-773):
`requested_control_flow = none` means the window requests termination. -/
structure TrackedWindowControl : Type where
  requested_control_flow : Option ControlFlow
  windows_to_create : List NewWindowRequest

/-- The schedule derivation of the redraw closure (multi_window macro
lines 264-281): from the quit flag and the repaint delay (nanoseconds) of
this window's own viewport id, produce the requested control flow and
whether an immediate native redraw was requested
(`gl_window.window.request_redraw()`). -/
def derive_control (quit : Bool) (repaint_after : Nat) (now : Nat) :
    Option ControlFlow × Bool :=
  if quit then (none, false)
  else if repaint_after = 0 then (some ControlFlow.Poll, true)
  else if repaint_after / 1000000 > 0 ∧ repaint_after / 1000000 < 10000 then
    (some (ControlFlow.WaitUntil (now + repaint_after)), false)
  else (some ControlFlow.Wait, false)

/-- One entry of the spawn loop of viewport reconciliation
(multi_window macro lines 237-262): an output viewport id that is not
`ROOT` and not yet registered is registered and a viewport request for it
(carrying the builder, the next fresh token, the registry value at spawn
time and the entry's deferred-render callback) is appended. -/
def reconcile_step (acc : List Nat × List NewWindowRequest × Nat)
    (entry : Nat × ViewportOutput) : List Nat × List NewWindowRequest × Nat :=
  let (set, spawns, tok) := acc
  if entry.fst ≠ ROOT_ID ∧ ¬ set.contains entry.fst then
    (entry.fst :: set,
     spawns ++ [NewWindowRequest.new_viewport entry.snd.builder tok
       entry.snd.builder entry.fst set entry.snd.viewport_ui_cb],
     tok + 1)
  else (set, spawns, tok)

/-- Viewport reconciliation, the part of the redraw closure at
multi_window macro lines 219-262.  Inputs: whether this container has a
deferred-render callback (`viewport_callback.is_some()`), its own
viewport id, the current registry value, the frame output, the initial
quit flag of the redraw response, and the next fresh identity token.
Outputs: the updated registry, the spawned viewport requests (in output
order), the possibly overridden quit flag, and the next unused token.
The removal pass runs only for containers without a callback; a
container with a callback whose own id left the registry is an implicit
quit; every output id other than `ROOT` that is not yet registered is
spawned and registered immediately. -/
def viewport_reconcile (has_cb : Bool) (selfid : Nat)
    (viewportset : List Nat) (output : List (Nat × ViewportOutput))
    (quit0 : Bool) (fresh : Nat) :
    List Nat × List NewWindowRequest × Bool × Nat :=
  let set1 :=
    if has_cb then viewportset
    else viewportset.filter (fun id => (output.map Prod.fst).contains id)
  let quit1 :=
    if has_cb then (quit0 || !(viewportset.contains selfid)) else quit0
  let (set2, spawns, tok') := output.foldl reconcile_step (set1, [], fresh)
  (set2, spawns, quit1, tok')

/-- The redraw closure of
`TrackedWindowContainerInstance::handle_event` (multi_window macro lines
206-316).  The window's `redraw` (or the deferred callback) produces the
initial response, the frame output is reconciled against the registry,
the control flow is derived from this window's own repaint delay, and the
frame is presented; `swap_buffers().unwrap()` panics (`none`) when the
present fails.  Returns the final response, the updated registry, the
requested control flow, whether a native redraw was requested, and the
next unused identity token. -/
def redraw_step (env : Env) (window : Option WindowData)
    (viewportset : List Nat) (viewportid : Nat) (viewportcb : Option Nat)
    (fresh : Nat) :
    Option (RedrawResponse × List Nat × Option ControlFlow × Bool × Nat) :=
  let rr0 :=
    if viewportcb.isSome then RedrawResponse.default
    else match window with
      | some w => w.redraw_response
      | none => RedrawResponse.default
  let (set', spawns, quit', tok') :=
    viewport_reconcile viewportcb.isSome viewportid viewportset
      env.frame_output rr0.quit fresh
  let rr := RedrawResponse.mk quit' (rr0.new_windows ++ spawns)
  let repaint_after :=
    ((env.frame_output.lookup viewportid).map
      ViewportOutput.repaint_delay).getD 0
  let (control_flow, redrawed) := derive_control rr.quit repaint_after env.now
  if env.swap_ok then some (rr, set', control_flow, redrawed, tok')
  else none

/-- The root-window-gone override at the end of
`TrackedWindowContainerInstance::handle_event` (multi_window macro lines
358-362): only a container with window data that is not root is forced to
terminate when no root window exists. -/
def force_root (root_window_exists : Bool) (window : Option WindowData)
    (control_flow : Option ControlFlow) : Option ControlFlow :=
  match window with
  | some w =>
    if !root_window_exists && !w.is_root then none else control_flow
  | none => control_flow

/-- `TrackedWindowContainerInstance::handle_event` (multi_window macro
lines 191-372): routes one event, producing the control decision, the
updated registry, whether a native redraw was requested, and the next
unused token; `none` models a panic (failed `swap_buffers`). -/
def handle_event (env : Env) (event : MEvent) (root_window_exists : Bool)
    (window : Option WindowData) (viewportset : List Nat)
    (viewportid : Nat) (viewportcb : Option Nat) (fresh : Nat) :
    Option (TrackedWindowControl × List Nat × Bool × Nat) :=
  match event with
  | MEvent.UserEvent _ =>
    let response := window.map WindowData.custom_response
    some
      ({ requested_control_flow :=
          force_root root_window_exists window (some ControlFlow.Wait),
         windows_to_create :=
          (response.map RedrawResponse.new_windows).getD [] },
       viewportset, false, fresh)
  | MEvent.WindowEvent _ we =>
    match we with
    | WEvent.RedrawRequested =>
      match redraw_step env window viewportset viewportid viewportcb fresh with
      | none => none
      | some (rr, set', control_flow, redrawed, tok') =>
        some
          ({ requested_control_flow :=
              force_root root_window_exists window control_flow,
             windows_to_create := rr.new_windows },
           set', redrawed || env.egui_repaint, tok')
    | WEvent.CloseRequested =>
      some
        ({ requested_control_flow := force_root root_window_exists window none,
           windows_to_create := [] },
         viewportset, env.egui_repaint, fresh)
    | _ =>
      some
        ({ requested_control_flow :=
            force_root root_window_exists window (some ControlFlow.Wait),
           windows_to_create := [] },
         viewportset, env.egui_repaint, fresh)
  | MEvent.LoopExiting =>
    some
      ({ requested_control_flow :=
          force_root root_window_exists window (some ControlFlow.Wait),
         windows_to_create := [] },
       viewportset, false, fresh)
  | MEvent.OtherEvent =>
    some
      ({ requested_control_flow :=
          force_root root_window_exists window (some ControlFlow.Wait),
         windows_to_create := [] },
       viewportset, false, fresh)

/-- `TrackedWindowContainer::try_quit` (multi_window macro lines
731-743): for a plain window whose `can_quit` allows it, the egui
instance's GPU resources are destroyed (the boolean result); the viewport
variant does nothing.  The container value itself is unchanged. -/
def try_quit (c : TrackedWindowContainer) : TrackedWindowContainer × Bool :=
  match c.window with
  | some w => if w.can_quit then (c, true) else (c, false)
  | none => (c, false)

/-- `TrackedWindowContainer::is_event_for_window` (multi_window macro
lines 557-599): matches window-events and addressed user-events against
the holder's native window id; every other (event, holder) combination —
including the empty-placeholder holder — falls to the catch-all `true`
arm. -/
def is_event_for_window (c : TrackedWindowContainer) (event : MEvent) :
    Bool :=
  match event, c.gl_window with
  | MEvent.UserEvent t, IndeterminateWindowedContext.PossiblyCurrent i =>
    match t with
    | some wid => wid == i
    | none => false
  | MEvent.UserEvent t, IndeterminateWindowedContext.NotCurrent i =>
    match t with
    | some wid => wid == i
    | none => false
  | MEvent.WindowEvent id _, IndeterminateWindowedContext.PossiblyCurrent i =>
    i == id
  | MEvent.WindowEvent id _, IndeterminateWindowedContext.NotCurrent i =>
    i == id
  | _, _ => true

/-- The body of `handle_event_outer` after the holder with native id `i`
has been taken into local custody and activated: create the egui
instance if missing, dispatch through `handle_event`, run `try_quit` on
a terminate decision, and restore the holder as `PossiblyCurrent i`. -/
def handle_event_body (env : Env) (root_window_exists : Bool)
    (c : TrackedWindowContainer) (event : MEvent) (fresh : Nat) (i : Nat) :
    Option (TrackedWindowContainer × TrackedWindowControl × Bool × Nat) :=
  match handle_event env event root_window_exists c.window c.viewportset
      c.viewportid c.viewportcb fresh with
  | none => none
  | some (ctrl, set', redrawed, tok') =>
    let c1 := { c with egui := some () }
    let c2 :=
      if ctrl.requested_control_flow.isNone then (try_quit c1).fst else c1
    some
      ({ c2 with
          gl_window := IndeterminateWindowedContext.PossiblyCurrent i,
          viewportset := set' },
       ctrl, redrawed, tok')

/-- `TrackedWindowContainer::handle_event_outer` (multi_window macro
lines 636-729): take custody of the graphics-context holder (panic —
`none` — if it is the empty placeholder), activate it, lazily create the
egui instance, dispatch the event, run `try_quit` on a terminate
decision, and restore the holder in the `PossiblyCurrent` state.  Returns
the updated container, the control decision, the native-redraw flag and
the next unused token; `none` models a panic. -/
def handle_event_outer (env : Env) (root_window_exists : Bool)
    (c : TrackedWindowContainer) (event : MEvent) (fresh : Nat) :
    Option (TrackedWindowContainer × TrackedWindowControl × Bool × Nat) :=
  match c.gl_window with
  | IndeterminateWindowedContext.NoContext => none
  | IndeterminateWindowedContext.PossiblyCurrent i =>
    handle_event_body env root_window_exists c event fresh i
  | IndeterminateWindowedContext.NotCurrent i =>
    handle_event_body env root_window_exists c event fresh i

/-- `MultiWindow::add` together with `TrackedWindowContainer::create`
(multi_window macro lines 875-900 and 477-555): materializing a request
yields a container in the `NotCurrent` holder state with a fresh native
window id `nid`, no egui instance yet, the request's window state (plain
vs. viewport), registry value, viewport id (defaulting to `ROOT`),
callback and viewport builder. -/
def container_of_request (r : NewWindowRequest) (nid : Nat) :
    TrackedWindowContainer :=
  { gl_window := IndeterminateWindowedContext.NotCurrent nid,
    egui := none,
    window := r.window_state,
    viewportset := r.viewportset,
    viewportid := r.viewport_id.getD ROOT_ID,
    viewportcb := r.viewport_callback,
    vb := r.viewport }

/-- The mutable state of the `while let Some(window) = self.windows.pop()`
loop of `MultiWindow::do_window_events`: the remaining stack (head = the
next window popped, i.e. the end of the `Vec`), the handled windows (most
recently handled first), the collected per-window control flows, and the
next fresh id used both for native window ids and identity tokens. -/
structure DweState : Type where
  stack : List TrackedWindowContainer
  handled : List TrackedWindowContainer
  flows : List (Option ControlFlow)
  next_id : Nat

/-- Push the containers materialized from `windows_to_create` onto the
window stack (`self.add` pushes to the end of the `Vec`, which the loop
pops next). -/
def push_adds (st : DweState) (reqs : List NewWindowRequest) : DweState :=
  reqs.foldl
    (fun s r =>
      { s with
          stack := container_of_request r s.next_id :: s.stack,
          next_id := s.next_id + 1 })
    st

/-- The body of the `do_window_events` loop for one popped window `w`
(multi_window macro lines 921-957): skip it when the event is not for it;
otherwise dispatch, then on a terminate decision drop the container only
when its window data's `can_quit` allows it (recording `none`; the
`continue` also skips adding its requested windows), otherwise retain it
recording `Wait`; on an ordinary decision retain it recording that flow.
`none` models a panic inside the dispatch. -/
def dwe_step (env : Env) (event : MEvent) (root_window_exists : Bool)
    (st : DweState) (w : TrackedWindowContainer) : Option DweState :=
  if is_event_for_window w event then
    match handle_event_outer env root_window_exists w event st.next_id with
    | none => none
    | some (w', ctrl, _, tok') =>
      let st := { st with next_id := tok' }
      match ctrl.requested_control_flow with
      | none =>
        match w'.window with
        | some d =>
          if d.can_quit then
            some { st with flows := st.flows ++ [none] }
          else
            some (push_adds
              { st with
                  flows := st.flows ++ [some ControlFlow.Wait],
                  handled := w' :: st.handled }
              ctrl.windows_to_create)
        | none =>
          some (push_adds
            { st with
                flows := st.flows ++ [some ControlFlow.Wait],
                handled := w' :: st.handled }
            ctrl.windows_to_create)
      | some requested_flow =>
        some (push_adds
          { st with
              flows := st.flows ++ [some requested_flow],
              handled := w' :: st.handled }
          ctrl.windows_to_create)
  else some { st with handled := w :: st.handled }

/-- The `do_window_events` pop loop, fuelled (the source loop's
termination depends on the environment's id assignment; `none` also
models a panic propagating out of a dispatch).  When the stack is empty
the handled windows are reversed back into original order
(`handled_windows.reverse(); self.windows.append(...)`). -/
def dwe_loop (env : Env) (event : MEvent) (root_window_exists : Bool) :
    Nat → DweState →
    Option (List TrackedWindowContainer × List (Option ControlFlow) × Nat)
  | 0, _ => none
  | fuel + 1, st =>
    match st.stack with
    | [] => some (st.handled.reverse, st.flows, st.next_id)
    | w :: rest =>
      match dwe_step env event root_window_exists { st with stack := rest } w with
      | none => none
      | some st' => dwe_loop env event root_window_exists fuel st'

/-- The root-window-existence snapshot taken at the start of a pass
(multi_window macro lines 912-919). -/
def root_exists (windows : List TrackedWindowContainer) : Bool :=
  windows.any (fun w =>
    match w.window with
    | some d => d.is_root
    | none => false)

/-- `MultiWindow::do_window_events` (multi_window macro lines 903-964):
snapshot root existence, run the pop loop over the collection (the head
of `windows` is the bottom of the `Vec`), and return the final live
collection with the collected control flows. -/
def do_window_events (env : Env) (fuel : Nat)
    (windows : List TrackedWindowContainer) (event : MEvent)
    (fresh : Nat) :
    Option (List TrackedWindowContainer × List (Option ControlFlow)) :=
  match dwe_loop env event (root_exists windows) fuel
      { stack := windows.reverse, handled := [], flows := [], next_id := fresh } with
  | none => none
  | some (out, flows, _) => some (out, flows)

/-- The decision communicated to the host loop at the end of one
iteration of `MultiWindow::run` (multi_window macro lines 991-1034):
the merged flow always overwrites the current flow, and an empty live
collection overrides the decision to loop termination (`none`, i.e.
`event_loop_window_target.exit()`). -/
def loop_decision (current : ControlFlow)
    (window_control_flow : List (Option ControlFlow))
    (windows_empty : Bool) : Option ControlFlow :=
  let flow : Option ControlFlow := some current
  let flow :=
    match flow with
    | none => none
    | some _ => some (merge_flows window_control_flow)
  if windows_empty then none else flow

/-! ## Helper lemmas about the control-flow merge -/

/-- The folding function of `merge_flows`. -/
def mergeFold (flow : ControlFlow) (o : Option ControlFlow) : ControlFlow :=
  match o with
  | some flow_request => mergeStep flow flow_request
  | none => flow

theorem merge_flows_def (l : List (Option ControlFlow)) :
    merge_flows l = l.foldl mergeFold ControlFlow.Wait := by
  rfl

theorem mergeFold_poll (o : Option ControlFlow) :
    mergeFold ControlFlow.Poll o = ControlFlow.Poll := by
  cases o with
  | none => rfl
  | some r => cases r <;> rfl

theorem foldl_mergeFold_poll (l : List (Option ControlFlow)) :
    l.foldl mergeFold ControlFlow.Poll = ControlFlow.Poll := by
  induction l with
  | nil => rfl
  | cons o l ih => simpa [List.foldl_cons, mergeFold_poll] using ih

theorem foldl_mergeFold_waitUntil (l : List (Option ControlFlow)) (t : Nat) :
    l.foldl mergeFold (ControlFlow.WaitUntil t) =
      if some ControlFlow.Poll ∈ l then ControlFlow.Poll
      else ControlFlow.WaitUntil ((waitTimes l).foldl min t) := by
  induction l generalizing t with
  | nil => simp [waitTimes]
  | cons o l ih =>
    match o with
    | none =>
      simp only [List.foldl_cons, mergeFold]
      rw [ih]
      simp [waitTimes]
    | some ControlFlow.Poll =>
      simp only [List.foldl_cons, mergeFold, mergeStep]
      simp [foldl_mergeFold_poll]
    | some ControlFlow.Wait =>
      simp only [List.foldl_cons, mergeFold, mergeStep]
      rw [ih]
      simp [waitTimes]
    | some (ControlFlow.WaitUntil s) =>
      simp only [List.foldl_cons, mergeFold, mergeStep]
      have hmin : (if s < t then ControlFlow.WaitUntil s
          else ControlFlow.WaitUntil t) = ControlFlow.WaitUntil (min t s) := by
        rcases Nat.lt_or_ge s t with h | h
        · simp [h, Nat.min_eq_right (Nat.le_of_lt h)]
        · have : ¬ s < t := Nat.not_lt.mpr h
          simp [this, Nat.min_eq_left h]
      rw [hmin, ih]
      simp [waitTimes]

theorem foldl_mergeFold_wait (l : List (Option ControlFlow)) :
    l.foldl mergeFold ControlFlow.Wait =
      if some ControlFlow.Poll ∈ l then ControlFlow.Poll
      else
        match waitTimes l with
        | [] => ControlFlow.Wait
        | t :: ts => ControlFlow.WaitUntil (ts.foldl min t) := by
  induction l with
  | nil => simp [waitTimes]
  | cons o l ih =>
    match o with
    | none =>
      simp only [List.foldl_cons, mergeFold]
      rw [ih]
      simp [waitTimes]
    | some ControlFlow.Poll =>
      simp only [List.foldl_cons, mergeFold, mergeStep]
      simp [foldl_mergeFold_poll]
    | some ControlFlow.Wait =>
      simp only [List.foldl_cons, mergeFold, mergeStep]
      rw [ih]
      simp [waitTimes]
    | some (ControlFlow.WaitUntil s) =>
      simp only [List.foldl_cons, mergeFold, mergeStep]
      rw [foldl_mergeFold_waitUntil]
      simp [waitTimes]

/-- The closed form of the merge: `Poll` wins if present, otherwise the
earliest `WaitUntil`, otherwise `Wait`. -/
def merge_spec (l : List (Option ControlFlow)) : ControlFlow :=
  if some ControlFlow.Poll ∈ l then ControlFlow.Poll
  else
    match waitTimes l with
    | [] => ControlFlow.Wait
    | t :: ts => ControlFlow.WaitUntil (ts.foldl min t)

theorem merge_flows_eq_spec (l : List (Option ControlFlow)) :
    merge_flows l = merge_spec l := by
  rw [merge_flows_def, foldl_mergeFold_wait]
  rfl

theorem foldl_min_le (ts : List Nat) (t : Nat) :
    ts.foldl min t ≤ t ∧ ∀ s ∈ ts, ts.foldl min t ≤ s := by
  induction ts generalizing t with
  | nil => simp
  | cons a ts ih =>
    refine ⟨?_, ?_⟩
    · calc ts.foldl min (min t a) ≤ min t a := (ih (min t a)).1
        _ ≤ t := Nat.min_le_left _ _
    · intro s hs
      rcases List.mem_cons.mp hs with h | h
      · subst h
        calc ts.foldl min (min t s) ≤ min t s := (ih (min t s)).1
          _ ≤ s := Nat.min_le_right _ _
      · exact (ih (min t a)).2 s h

theorem foldl_min_mem (ts : List Nat) (t : Nat) :
    ts.foldl min t = t ∨ ts.foldl min t ∈ ts := by
  induction ts generalizing t with
  | nil => simp
  | cons a ts ih =>
    simp only [List.foldl_cons]
    rcases ih (min t a) with h | h
    · rcases Nat.le_total t a with hta | hat
      · left
        rw [h, Nat.min_eq_left hta]
      · right
        rw [h, Nat.min_eq_right hat]
        exact List.mem_cons_self a ts
    · right
      exact List.mem_cons_of_mem a h

theorem waitTimes_append (l1 l2 : List (Option ControlFlow)) :
    waitTimes (l1 ++ l2) = waitTimes l1 ++ waitTimes l2 := by
  simp [waitTimes]

/-! ## Helper lemmas about dispatch -/

theorem try_quit_fst (c : TrackedWindowContainer) : (try_quit c).fst = c := by
  unfold try_quit
  cases hw : c.window with
  | none => rfl
  | some w =>
    cases hq : w.can_quit <;> simp [hq]

/-- Rewriting form of `handle_event_body`: since `try_quit` leaves the
container value unchanged, the body reduces to dispatch plus the field
updates. -/
theorem handle_event_body_eq (env : Env) (root : Bool)
    (c : TrackedWindowContainer) (ev : MEvent) (fresh : Nat) (i : Nat) :
    handle_event_body env root c ev fresh i =
      match handle_event env ev root c.window c.viewportset c.viewportid
          c.viewportcb fresh with
      | none => none
      | some (ctrl, set', redrawed, tok') =>
        some
          ({ c with
              egui := some (),
              gl_window := IndeterminateWindowedContext.PossiblyCurrent i,
              viewportset := set' },
           ctrl, redrawed, tok') := by
  unfold handle_event_body
  cases handle_event env ev root c.window c.viewportset c.viewportid
      c.viewportcb fresh with
  | none => rfl
  | some r =>
    obtain ⟨ctrl, set', redrawed, tok'⟩ := r
    simp [try_quit_fst, ite_self]

/-- Shape of a successful `handle_event_outer`: the holder was not the
placeholder, the inner dispatch succeeded, and the returned container is
the input with the egui instance present, the holder restored as
`PossiblyCurrent`, and the registry updated. -/
theorem heo_some_elim (env : Env) (root : Bool)
    (c : TrackedWindowContainer) (ev : MEvent) (fresh : Nat)
    (c' : TrackedWindowContainer) (ctrl : TrackedWindowControl) (fl : Bool)
    (tok : Nat)
    (h : handle_event_outer env root c ev fresh = some (c', ctrl, fl, tok)) :
    ∃ i set',
      (c.gl_window = IndeterminateWindowedContext.PossiblyCurrent i ∨
       c.gl_window = IndeterminateWindowedContext.NotCurrent i) ∧
      handle_event env ev root c.window c.viewportset c.viewportid
        c.viewportcb fresh = some (ctrl, set', fl, tok) ∧
      c' = { c with
              egui := some (),
              gl_window := IndeterminateWindowedContext.PossiblyCurrent i,
              viewportset := set' } := by
  unfold handle_event_outer at h
  cases hg : c.gl_window with
  | NoContext => rw [hg] at h; simp at h
  | PossiblyCurrent i =>
    rw [hg] at h
    dsimp only at h
    rw [handle_event_body_eq] at h
    cases hhe : handle_event env ev root c.window c.viewportset c.viewportid
        c.viewportcb fresh with
    | none => rw [hhe] at h; simp at h
    | some r =>
      obtain ⟨ctrl0, set0, fl0, tok0⟩ := r
      rw [hhe] at h
      simp only [Option.some.injEq, Prod.mk.injEq] at h
      obtain ⟨hc, hctrl, hfl, htok⟩ := h
      subst hctrl; subst hfl; subst htok
      exact ⟨i, set0, Or.inl rfl, rfl, hc.symm⟩
  | NotCurrent i =>
    rw [hg] at h
    dsimp only at h
    rw [handle_event_body_eq] at h
    cases hhe : handle_event env ev root c.window c.viewportset c.viewportid
        c.viewportcb fresh with
    | none => rw [hhe] at h; simp at h
    | some r =>
      obtain ⟨ctrl0, set0, fl0, tok0⟩ := r
      rw [hhe] at h
      simp only [Option.some.injEq, Prod.mk.injEq] at h
      obtain ⟨hc, hctrl, hfl, htok⟩ := h
      subst hctrl; subst hfl; subst htok
      exact ⟨i, set0, Or.inr rfl, rfl, hc.symm⟩

theorem push_adds_handled (st : DweState) (reqs : List NewWindowRequest) :
    (push_adds st reqs).handled = st.handled := by
  induction reqs generalizing st with
  | nil => rfl
  | cons r reqs ih => simpa [push_adds] using ih _

theorem push_adds_flows (st : DweState) (reqs : List NewWindowRequest) :
    (push_adds st reqs).flows = st.flows := by
  induction reqs generalizing st with
  | nil => rfl
  | cons r reqs ih => simpa [push_adds] using ih _

theorem push_adds_stack_mem (st : DweState) (reqs : List NewWindowRequest)
    (x : TrackedWindowContainer) (hx : x ∈ (push_adds st reqs).stack) :
    x ∈ st.stack ∨ ∃ r n, x = container_of_request r n := by
  induction reqs generalizing st with
  | nil => exact Or.inl hx
  | cons r reqs ih =>
    rcases ih _ hx with h | h
    · rcases List.mem_cons.mp h with h' | h'
      · exact Or.inr ⟨r, st.next_id, h'⟩
      · exact Or.inl h'
    · exact Or.inr h

/-- Exhaustive case analysis of a successful `dwe_step`: either the event
was not for the window (retained untouched), or the window was dispatched
and then dropped (terminate permitted by `can_quit`, recording `none` and
skipping its window requests), or retained (recording `Wait` on a denied
or window-less terminate, or the requested flow otherwise, and pushing
its window requests). -/
theorem dwe_step_cases (env : Env) (ev : MEvent) (root : Bool)
    (st : DweState) (w : TrackedWindowContainer) (st' : DweState)
    (h : dwe_step env ev root st w = some st') :
    (is_event_for_window w ev = false ∧
      st' = { st with handled := w :: st.handled }) ∨
    (∃ w' ctrl fl tok d,
      is_event_for_window w ev = true ∧
      handle_event_outer env root w ev st.next_id = some (w', ctrl, fl, tok) ∧
      ctrl.requested_control_flow = none ∧ w'.window = some d ∧
      d.can_quit = true ∧
      st' = { st with next_id := tok, flows := st.flows ++ [none] }) ∨
    (∃ w' ctrl fl tok flowEntry,
      is_event_for_window w ev = true ∧
      handle_event_outer env root w ev st.next_id = some (w', ctrl, fl, tok) ∧
      st' = push_adds
        { st with
            next_id := tok,
            flows := st.flows ++ [flowEntry],
            handled := w' :: st.handled }
        ctrl.windows_to_create ∧
      ((ctrl.requested_control_flow = none ∧
          flowEntry = some ControlFlow.Wait ∧
          (w'.window = none ∨ ∃ d, w'.window = some d ∧ d.can_quit = false)) ∨
       (∃ rq, ctrl.requested_control_flow = some rq ∧
          flowEntry = some rq))) := by
  unfold dwe_step at h
  cases hm : is_event_for_window w ev with
  | false =>
    rw [hm] at h
    simp only [Bool.false_eq_true, if_false, Option.some.injEq] at h
    exact Or.inl ⟨rfl, h.symm⟩
  | true =>
    rw [hm] at h
    simp only [if_true] at h
    cases hho : handle_event_outer env root w ev st.next_id with
    | none => rw [hho] at h; simp at h
    | some r =>
      obtain ⟨w', ctrl, fl, tok⟩ := r
      rw [hho] at h
      dsimp only at h
      cases hrq : ctrl.requested_control_flow with
      | none =>
        rw [hrq] at h
        dsimp only at h
        cases hwd : w'.window with
        | none =>
          rw [hwd] at h
          dsimp only at h
          simp only [Option.some.injEq] at h
          exact Or.inr (Or.inr ⟨w', ctrl, fl, tok, some ControlFlow.Wait,
            rfl, rfl, h.symm, Or.inl ⟨hrq, rfl, Or.inl hwd⟩⟩)
        | some d =>
          rw [hwd] at h
          dsimp only at h
          cases hq : d.can_quit with
          | true =>
            rw [hq] at h
            simp only [if_true, Option.some.injEq] at h
            exact Or.inr (Or.inl ⟨w', ctrl, fl, tok, d, rfl, rfl, hrq, hwd,
              hq, h.symm⟩)
          | false =>
            rw [hq] at h
            simp only [Bool.false_eq_true, if_false, Option.some.injEq] at h
            exact Or.inr (Or.inr ⟨w', ctrl, fl, tok, some ControlFlow.Wait,
              rfl, rfl, h.symm, Or.inl ⟨hrq, rfl, Or.inr ⟨d, hwd, hq⟩⟩⟩)
      | some rq =>
        rw [hrq] at h
        dsimp only at h
        simp only [Option.some.injEq] at h
        exact Or.inr (Or.inr ⟨w', ctrl, fl, tok, some rq, rfl, rfl, h.symm,
          Or.inr ⟨rq, hrq, rfl⟩⟩)

theorem force_root_not_root (cf : Option ControlFlow) (d : WindowData)
    (h : d.is_root = false) : force_root false (some d) cf = none := by
  simp [force_root, h]

/-- Every branch of `handle_event` produces its decision through the
root-window-gone override `force_root`. -/
theorem handle_event_requested_force (env : Env) (ev : MEvent) (root : Bool)
    (window : Option WindowData) (set : List Nat) (vpid : Nat)
    (vcb : Option Nat) (fresh : Nat) (ctrl : TrackedWindowControl)
    (set' : List Nat) (fl : Bool) (tok : Nat)
    (h : handle_event env ev root window set vpid vcb fresh =
      some (ctrl, set', fl, tok)) :
    ∃ cf0, ctrl.requested_control_flow = force_root root window cf0 := by
  cases ev with
  | UserEvent t =>
    simp only [handle_event, Option.some.injEq, Prod.mk.injEq] at h
    obtain ⟨h1, h2, h3, h4⟩ := h
    subst h1
    exact ⟨some ControlFlow.Wait, rfl⟩
  | LoopExiting =>
    simp only [handle_event, Option.some.injEq, Prod.mk.injEq] at h
    obtain ⟨h1, h2, h3, h4⟩ := h
    subst h1
    exact ⟨some ControlFlow.Wait, rfl⟩
  | OtherEvent =>
    simp only [handle_event, Option.some.injEq, Prod.mk.injEq] at h
    obtain ⟨h1, h2, h3, h4⟩ := h
    subst h1
    exact ⟨some ControlFlow.Wait, rfl⟩
  | WindowEvent i we =>
    cases we with
    | Resized a b =>
      simp only [handle_event, Option.some.injEq, Prod.mk.injEq] at h
      obtain ⟨h1, h2, h3, h4⟩ := h
      subst h1
      exact ⟨some ControlFlow.Wait, rfl⟩
    | OtherWindowEvent =>
      simp only [handle_event, Option.some.injEq, Prod.mk.injEq] at h
      obtain ⟨h1, h2, h3, h4⟩ := h
      subst h1
      exact ⟨some ControlFlow.Wait, rfl⟩
    | CloseRequested =>
      simp only [handle_event, Option.some.injEq, Prod.mk.injEq] at h
      obtain ⟨h1, h2, h3, h4⟩ := h
      subst h1
      exact ⟨none, rfl⟩
    | RedrawRequested =>
      simp only [handle_event] at h
      cases hr : redraw_step env window set vpid vcb fresh with
      | none => rw [hr] at h; simp at h
      | some r =>
        obtain ⟨rr, set2, cf, rd, tk⟩ := r
        rw [hr] at h
        simp only [Option.some.injEq, Prod.mk.injEq] at h
        obtain ⟨h1, h2, h3, h4⟩ := h
        subst h1
        exact ⟨cf, rfl⟩

theorem container_of_request_gl (r : NewWindowRequest) (n : Nat) :
    (container_of_request r n).gl_window =
      IndeterminateWindowedContext.NotCurrent n := rfl

/-- Dispatch-pass invariant: no container ever ends up holding the empty
placeholder — dispatched containers are restored `PossiblyCurrent`,
untouched containers keep their holder, created containers start
`NotCurrent`. -/
theorem dwe_loop_no_placeholder (env : Env) (ev : MEvent) (root : Bool) :
    ∀ (fuel : Nat) (st : DweState) out flows nid,
      dwe_loop env ev root fuel st = some (out, flows, nid) →
      (∀ x ∈ st.stack, x.gl_window ≠ IndeterminateWindowedContext.NoContext) →
      (∀ x ∈ st.handled,
        x.gl_window ≠ IndeterminateWindowedContext.NoContext) →
      ∀ x ∈ out, x.gl_window ≠ IndeterminateWindowedContext.NoContext := by
  intro fuel
  induction fuel with
  | zero => intro st out flows nid h; simp [dwe_loop] at h
  | succ fuel ih =>
    intro st out flows nid h hstack hhandled
    rw [dwe_loop] at h
    cases hst : st.stack with
    | nil =>
      rw [hst] at h
      simp only [Option.some.injEq, Prod.mk.injEq] at h
      intro x hx
      apply hhandled
      rw [← h.1] at hx
      exact List.mem_reverse.mp hx
    | cons w rest =>
      rw [hst] at h
      dsimp only at h
      have hw : w ∈ st.stack := by rw [hst]; exact List.mem_cons_self _ _
      have hrest : ∀ x ∈ rest, x ∈ st.stack := by
        intro x hx; rw [hst]; exact List.mem_cons_of_mem _ hx
      cases hs : dwe_step env ev root { st with stack := rest } w with
      | none => rw [hs] at h; simp at h
      | some st' =>
        rw [hs] at h
        dsimp only at h
        apply ih st' out flows nid h
        · rcases dwe_step_cases _ _ _ _ _ _ hs with
            ⟨_, hst'⟩ | ⟨w', ctrl, fl, tok, d, _, _, _, _, _, hst'⟩ |
            ⟨w', ctrl, fl, tok, fe, _, hho, hst', _⟩
          · rw [hst']; intro x hx; exact hstack x (hrest x hx)
          · rw [hst']; intro x hx; exact hstack x (hrest x hx)
          · rw [hst']
            intro x hx
            rcases push_adds_stack_mem _ _ _ hx with hx' | ⟨r, n, hx'⟩
            · exact hstack x (hrest x hx')
            · rw [hx', container_of_request_gl]; simp
        · rcases dwe_step_cases _ _ _ _ _ _ hs with
            ⟨_, hst'⟩ | ⟨w', ctrl, fl, tok, d, _, _, _, _, _, hst'⟩ |
            ⟨w', ctrl, fl, tok, fe, _, hho, hst', _⟩
          · rw [hst']
            intro x hx
            rcases List.mem_cons.mp hx with hx' | hx'
            · rw [hx']; exact hstack w hw
            · exact hhandled x hx'
          · rw [hst']; intro x hx; exact hhandled x hx
          · rw [hst', push_adds_handled]
            intro x hx
            rcases List.mem_cons.mp hx with hx' | hx'
            · obtain ⟨i, set', _, _, hw'⟩ := heo_some_elim _ _ _ _ _ _ _ _ _ hho
              rw [hx', hw']
              simp
            · exact hhandled x hx'

/-- The per-container invariant established by a pass with no root window:
a surviving plain non-root window either did not match the event or
denied `can_quit`. -/
def rootGoneInv (ev : MEvent) (x : TrackedWindowContainer) : Prop :=
  ∀ d, x.window = some d → d.is_root = false →
    is_event_for_window x ev = false ∨ d.can_quit = false

/-- Dispatch-pass invariant under `root_window_exists = false`: every
handled container satisfies `rootGoneInv` — a dispatched plain non-root
window is dropped unless its `can_quit` denies. -/
theorem dwe_loop_root_gone (env : Env) (ev : MEvent) :
    ∀ (fuel : Nat) (st : DweState) out flows nid,
      dwe_loop env ev false fuel st = some (out, flows, nid) →
      (∀ x ∈ st.handled, rootGoneInv ev x) →
      ∀ x ∈ out, rootGoneInv ev x := by
  intro fuel
  induction fuel with
  | zero => intro st out flows nid h; simp [dwe_loop] at h
  | succ fuel ih =>
    intro st out flows nid h hhandled
    rw [dwe_loop] at h
    cases hst : st.stack with
    | nil =>
      rw [hst] at h
      simp only [Option.some.injEq, Prod.mk.injEq] at h
      intro x hx
      apply hhandled
      rw [← h.1] at hx
      exact List.mem_reverse.mp hx
    | cons w rest =>
      rw [hst] at h
      dsimp only at h
      cases hs : dwe_step env ev false { st with stack := rest } w with
      | none => rw [hs] at h; simp at h
      | some st' =>
        rw [hs] at h
        dsimp only at h
        apply ih st' out flows nid h
        rcases dwe_step_cases _ _ _ _ _ _ hs with
          ⟨hm, hst'⟩ | ⟨w', ctrl, fl, tok, d, _, _, _, _, _, hst'⟩ |
          ⟨w', ctrl, fl, tok, fe, hm, hho, hst', hclass⟩
        · rw [hst']
          intro x hx
          rcases List.mem_cons.mp hx with hx' | hx'
          · rw [hx']
            intro d _ _
            exact Or.inl hm
          · exact hhandled x hx'
        · rw [hst']; intro x hx; exact hhandled x hx
        · rw [hst', push_adds_handled]
          intro x hx
          rcases List.mem_cons.mp hx with hx' | hx'
          · rw [hx']
            intro d hd hroot
            obtain ⟨i, set', _, hhe, hw'⟩ := heo_some_elim _ _ _ _ _ _ _ _ _ hho
            have hwin : w'.window = w.window := by rw [hw']
            rcases hclass with ⟨hrq, _, hcq⟩ | ⟨rq, hrq, _⟩
            · rcases hcq with hnone | ⟨d', hd', hq'⟩
              · rw [hd] at hnone; exact absurd hnone (by simp)
              · rw [hd] at hd'
                have : d = d' := by injection hd'
                right
                rw [this]
                exact hq'
            · obtain ⟨cf0, hcf⟩ := handle_event_requested_force _ _ _ _ _ _ _ _
                _ _ _ _ hhe
              rw [hrq] at hcf
              have hwd : w.window = some d := by rw [← hwin, hd]
              rw [hwd, force_root_not_root cf0 d hroot] at hcf
              exact absurd hcf (by simp)
          · exact hhandled x hx'

/-- Containers already handled are never removed later in the pass. -/
theorem dwe_loop_handled_mono (env : Env) (ev : MEvent) (root : Bool) :
    ∀ (fuel : Nat) (st : DweState) out flows nid,
      dwe_loop env ev root fuel st = some (out, flows, nid) →
      ∀ x ∈ st.handled, x ∈ out := by
  intro fuel
  induction fuel with
  | zero => intro st out flows nid h; simp [dwe_loop] at h
  | succ fuel ih =>
    intro st out flows nid h
    rw [dwe_loop] at h
    cases hst : st.stack with
    | nil =>
      rw [hst] at h
      simp only [Option.some.injEq, Prod.mk.injEq] at h
      intro x hx
      rw [← h.1]
      exact List.mem_reverse.mpr hx
    | cons w rest =>
      rw [hst] at h
      dsimp only at h
      cases hs : dwe_step env ev root { st with stack := rest } w with
      | none => rw [hs] at h; simp at h
      | some st' =>
        rw [hs] at h
        dsimp only at h
        intro x hx
        apply ih st' out flows nid h
        rcases dwe_step_cases _ _ _ _ _ _ hs with
          ⟨_, hst'⟩ | ⟨w', ctrl, fl, tok, d, _, _, _, _, _, hst'⟩ |
          ⟨w', ctrl, fl, tok, fe, _, _, hst', _⟩
        · rw [hst']; exact List.mem_cons_of_mem _ hx
        · rw [hst']; exact hx
        · rw [hst', push_adds_handled]; exact List.mem_cons_of_mem _ hx

/-- The number of pure-viewport containers in a list. -/
def countV (l : List TrackedWindowContainer) : Nat :=
  l.countP (fun c => c.window.isNone)

theorem countV_reverse (l : List TrackedWindowContainer) :
    countV l.reverse = countV l := by
  simp [countV, List.countP_eq_length_filter, List.filter_reverse]

theorem countV_cons (c : TrackedWindowContainer)
    (l : List TrackedWindowContainer) :
    countV (c :: l) = (if c.window.isNone then 1 else 0) + countV l := by
  simp [countV, List.countP_cons]
  cases hw : c.window <;> simp [hw, Nat.add_comm]

theorem push_adds_countV (st : DweState) (reqs : List NewWindowRequest) :
    countV st.stack ≤ countV (push_adds st reqs).stack := by
  induction reqs generalizing st with
  | nil => exact Nat.le_refl _
  | cons r reqs ih =>
    have h1 : push_adds st (r :: reqs) =
        push_adds
          { st with
              stack := container_of_request r st.next_id :: st.stack,
              next_id := st.next_id + 1 } reqs := by
      simp [push_adds]
    rw [h1]
    refine Nat.le_trans ?_ (ih _)
    dsimp only
    rw [countV_cons]
    exact Nat.le_add_left _ _

/-- Dispatch-pass invariant: the number of pure-viewport containers never
decreases — only plain windows are ever dropped. -/
theorem dwe_loop_countV (env : Env) (ev : MEvent) (root : Bool) :
    ∀ (fuel : Nat) (st : DweState) out flows nid,
      dwe_loop env ev root fuel st = some (out, flows, nid) →
      countV st.stack + countV st.handled ≤ countV out := by
  intro fuel
  induction fuel with
  | zero => intro st out flows nid h; simp [dwe_loop] at h
  | succ fuel ih =>
    intro st out flows nid h
    rw [dwe_loop] at h
    cases hst : st.stack with
    | nil =>
      rw [hst] at h
      simp only [Option.some.injEq, Prod.mk.injEq] at h
      rw [← h.1, countV_reverse]
      simp [countV]
    | cons w rest =>
      rw [hst] at h
      dsimp only at h
      cases hs : dwe_step env ev root { st with stack := rest } w with
      | none => rw [hs] at h; simp at h
      | some st' =>
        rw [hs] at h
        dsimp only at h
        have hout := ih st' out flows nid h
        refine Nat.le_trans ?_ hout
        rcases dwe_step_cases _ _ _ _ _ _ hs with
          ⟨_, hst'⟩ | ⟨w', ctrl, fl, tok, d, _, hho, _, hwd, _, hst'⟩ |
          ⟨w', ctrl, fl, tok, fe, _, hho, hst', _⟩
        · rw [hst']
          dsimp only
          rw [countV_cons, countV_cons]
          omega
        · rw [hst']
          dsimp only
          obtain ⟨i, set', _, _, hw'⟩ := heo_some_elim _ _ _ _ _ _ _ _ _ hho
          have hwin : w.window = some d := by
            have : w'.window = w.window := by rw [hw']
            rw [← this, hwd]
          rw [countV_cons, hwin]
          simp
        · rw [hst']
          obtain ⟨i, set', _, _, hw'⟩ := heo_some_elim _ _ _ _ _ _ _ _ _ hho
          have hwin : w'.window = w.window := by rw [hw']
          refine Nat.le_trans ?_ (Nat.add_le_add_right (push_adds_countV _ _) _)
          rw [push_adds_handled]
          dsimp only
          rw [countV_cons, countV_cons, hwin]
          omega

/-! ## Scenario constants -/

/-- A window-type state with given flags and empty responses. -/
def flagWindow (r q : Bool) : WindowData :=
  WindowData.mk r q RedrawResponse.default RedrawResponse.default

/-- A container with the given holder and window data, empty registry,
viewport id 0, no callback. -/
def mkContainer (gl : IndeterminateWindowedContext) (w : Option WindowData) :
    TrackedWindowContainer :=
  { gl_window := gl, egui := some (), window := w, viewportset := [],
    viewportid := 0, viewportcb := none, vb := none }

/-- A benign environment: empty frame output, successful present. -/
def quietEnv : Env :=
  { frame_output := [], swap_ok := true, now := 0, egui_repaint := false }

/-- A freshly created root-window container (holder still `NotCurrent`). -/
def freshRootCont : TrackedWindowContainer :=
  mkContainer (IndeterminateWindowedContext.NotCurrent 5)
    (some (flagWindow true true))

/-- A dispatched non-root container whose `can_quit` denies. -/
def denyCont : TrackedWindowContainer :=
  mkContainer (IndeterminateWindowedContext.PossiblyCurrent 5)
    (some (flagWindow false false))

/-- A pure-viewport container with a deferred-render callback whose own
viewport id (2) is absent from the registry. -/
def orphanViewportCont : TrackedWindowContainer :=
  { gl_window := IndeterminateWindowedContext.PossiblyCurrent 5,
    egui := some (), window := none, viewportset := [], viewportid := 2,
    viewportcb := some 1, vb := none }

/-! ## Claim C2 -/

/-- C2: the control-flow merge satisfies — empty merges to `Wait`; a
`Poll` entry makes the result `Poll` regardless of the rest; with no
`Poll` and at least one `WaitUntil` the result is `WaitUntil` of the
earliest such instant; `Wait` entries never change the result; and
terminate entries (`none`) never change the result (the
`if let Some(flow_request)` skip excludes them from aggregation). -/
theorem C2_merge_precedence :
    (merge_flows [] = ControlFlow.Wait) ∧
    (∀ l, some ControlFlow.Poll ∈ l → merge_flows l = ControlFlow.Poll) ∧
    (∀ l, some ControlFlow.Poll ∉ l → waitTimes l ≠ [] →
      ∃ m, merge_flows l = ControlFlow.WaitUntil m ∧ m ∈ waitTimes l ∧
        ∀ t ∈ waitTimes l, m ≤ t) ∧
    (∀ l1 l2, merge_flows (l1 ++ some ControlFlow.Wait :: l2) =
      merge_flows (l1 ++ l2)) ∧
    (∀ l1 l2, merge_flows (l1 ++ none :: l2) = merge_flows (l1 ++ l2)) := by
  refine ⟨rfl, ?_, ?_, ?_, ?_⟩
  · intro l h
    rw [merge_flows_eq_spec]
    unfold merge_spec
    rw [if_pos h]
  · intro l hp hw
    rw [merge_flows_eq_spec]
    unfold merge_spec
    rw [if_neg hp]
    cases hwt : waitTimes l with
    | nil => exact absurd hwt hw
    | cons t ts =>
      refine ⟨ts.foldl min t, rfl, ?_, ?_⟩
      · rcases foldl_min_mem ts t with h | h
        · rw [h]; exact List.mem_cons_self _ _
        · exact List.mem_cons_of_mem _ h
      · intro s hs
        rcases List.mem_cons.mp hs with h | h
        · rw [h]; exact (foldl_min_le ts t).1
        · exact (foldl_min_le ts t).2 s h
  · intro l1 l2
    rw [merge_flows_eq_spec, merge_flows_eq_spec]
    unfold merge_spec
    have h2 : waitTimes (l1 ++ some ControlFlow.Wait :: l2) =
        waitTimes (l1 ++ l2) := by
      simp [waitTimes]
    by_cases hp : some ControlFlow.Poll ∈ l1 ++ l2
    · have hp' : some ControlFlow.Poll ∈ l1 ++ some ControlFlow.Wait :: l2 := by
        rcases List.mem_append.mp hp with h | h
        · exact List.mem_append.mpr (Or.inl h)
        · exact List.mem_append.mpr (Or.inr (List.mem_cons_of_mem _ h))
      rw [if_pos hp, if_pos hp']
    · have hp' : some ControlFlow.Poll ∉ l1 ++ some ControlFlow.Wait :: l2 := by
        intro hc
        rcases List.mem_append.mp hc with h | h
        · exact hp (List.mem_append.mpr (Or.inl h))
        · rcases List.mem_cons.mp h with h' | h'
          · simp at h'
          · exact hp (List.mem_append.mpr (Or.inr h'))
      rw [if_neg hp, if_neg hp', h2]
  · intro l1 l2
    rw [merge_flows_eq_spec, merge_flows_eq_spec]
    unfold merge_spec
    have h2 : waitTimes (l1 ++ none :: l2) = waitTimes (l1 ++ l2) := by
      simp [waitTimes]
    by_cases hp : some ControlFlow.Poll ∈ l1 ++ l2
    · have hp' : some ControlFlow.Poll ∈ l1 ++ none :: l2 := by
        rcases List.mem_append.mp hp with h | h
        · exact List.mem_append.mpr (Or.inl h)
        · exact List.mem_append.mpr (Or.inr (List.mem_cons_of_mem _ h))
      rw [if_pos hp, if_pos hp']
    · have hp' : some ControlFlow.Poll ∉ l1 ++ none :: l2 := by
        intro hc
        rcases List.mem_append.mp hc with h | h
        · exact hp (List.mem_append.mpr (Or.inl h))
        · rcases List.mem_cons.mp h with h' | h'
          · simp at h'
          · exact hp (List.mem_append.mpr (Or.inr h'))
      rw [if_neg hp, if_neg hp', h2]

/-- C2 witness: the Poll-dominance conjunct applied at a concrete list. -/
theorem C2_merge_precedence_witness :
    merge_flows [some ControlFlow.Wait, some (ControlFlow.WaitUntil 5),
      some ControlFlow.Poll] = ControlFlow.Poll :=
  C2_merge_precedence.2.1 _ (by decide)

/-! ## Claim C9 -/

/-- C9: after the merged schedule is computed, an empty live collection
overrides the decision to loop termination; a non-empty collection
communicates the merged schedule unchanged. -/
theorem C9_empty_collection_override (current : ControlFlow)
    (window_control_flow : List (Option ControlFlow)) :
    loop_decision current window_control_flow true = none ∧
    loop_decision current window_control_flow false =
      some (merge_flows window_control_flow) :=
  ⟨rfl, rfl⟩

/-! ## Claim C4 -/

/-- C4 counterexample: a nonzero repaint delay of 500000 ns (0.5 ms) lies
strictly between zero and 10 s, yet the derived schedule is `Wait`, not
`WaitUntil(now + delay)` — the source tests whole milliseconds
(`as_millis() > 0`), so sub-millisecond delays fall through to `Wait`. -/
theorem C4_counterexample :
    0 < 500000 ∧ 500000 < 10000000000 ∧
    derive_control false 500000 0 = (some ControlFlow.Wait, false) ∧
    (derive_control false 500000 0).1 ≠
      some (ControlFlow.WaitUntil (0 + 500000)) :=
  ⟨by decide, by decide, by decide, by decide⟩

/-- C4 (amended): quit yields terminate; a zero delay requests an
immediate native redraw and yields `Poll`; a delay of at least one whole
millisecond and under 10000 whole milliseconds yields
`WaitUntil(now + delay)`; a nonzero delay under one millisecond, or a
delay of at least 10 s, yields `Wait`. -/
theorem C4_schedule_derivation (q : Bool) (d now : Nat) :
    (q = true → derive_control q d now = (none, false)) ∧
    (q = false → d = 0 →
      derive_control q d now = (some ControlFlow.Poll, true)) ∧
    (q = false → 1000000 ≤ d → d < 10000000000 →
      derive_control q d now = (some (ControlFlow.WaitUntil (now + d)), false)) ∧
    (q = false → 0 < d → d < 1000000 →
      derive_control q d now = (some ControlFlow.Wait, false)) ∧
    (q = false → 10000000000 ≤ d →
      derive_control q d now = (some ControlFlow.Wait, false)) := by
  refine ⟨?_, ?_, ?_, ?_, ?_⟩
  · intro hq; subst hq; simp [derive_control]
  · intro hq hd; subst hq; subst hd; simp [derive_control]
  · intro hq h1 h2
    subst hq
    have hd0 : d ≠ 0 := by omega
    have hq1 : 0 < d / 1000000 := Nat.div_pos h1 (by omega)
    have hq2 : d / 1000000 < 10000 := by
      rw [Nat.div_lt_iff_lt_mul (by omega : 0 < 1000000)]
      omega
    simp [derive_control, hd0, hq1, hq2]
  · intro hq h1 h2
    subst hq
    have hd0 : d ≠ 0 := by omega
    have hq1 : d / 1000000 = 0 := Nat.div_eq_of_lt h2
    simp [derive_control, hd0, hq1]
  · intro hq h1
    subst hq
    have hd0 : d ≠ 0 := by omega
    have hq2 : ¬ d / 1000000 < 10000 := by
      rw [Nat.not_lt]
      rw [Nat.le_div_iff_mul_le (by omega : 0 < 1000000)]
      omega
    simp [derive_control, hd0, hq2]

/-- C4 witness: the `WaitUntil` conjunct applied at a 2 ms delay. -/
theorem C4_schedule_derivation_witness :
    derive_control false 2000000 7 =
      (some (ControlFlow.WaitUntil (7 + 2000000)), false) :=
  (C4_schedule_derivation false 2000000 7).2.2.1 rfl (by decide) (by decide)

/-! ## Claim C6 -/

/-- C6 counterexample: a broadcast user-event (no target id) against a
container whose holder resolves id 5 returns `false`, not `true` — the
source's `else { false }` arm rejects unaddressed user-events at the
per-window filter. -/
theorem C6_counterexample :
    is_event_for_window
      (mkContainer (IndeterminateWindowedContext.PossiblyCurrent 5)
        (some (flagWindow true true)))
      (MEvent.UserEvent none) = false := rfl

/-- C6 (amended): with a resolvable holder id, window-events match
exactly on the id, addressed user-events match exactly on the id, and an
unaddressed (broadcast) user-event returns `false`; with the
empty-placeholder holder every event matches. -/
theorem C6_event_matching :
    (∀ (c : TrackedWindowContainer) (j i : Nat) (we : WEvent),
      (c.gl_window = IndeterminateWindowedContext.PossiblyCurrent j ∨
       c.gl_window = IndeterminateWindowedContext.NotCurrent j) →
      is_event_for_window c (MEvent.WindowEvent i we) = (j == i)) ∧
    (∀ (c : TrackedWindowContainer) (j t : Nat),
      (c.gl_window = IndeterminateWindowedContext.PossiblyCurrent j ∨
       c.gl_window = IndeterminateWindowedContext.NotCurrent j) →
      is_event_for_window c (MEvent.UserEvent (some t)) = (t == j)) ∧
    (∀ (c : TrackedWindowContainer) (j : Nat),
      (c.gl_window = IndeterminateWindowedContext.PossiblyCurrent j ∨
       c.gl_window = IndeterminateWindowedContext.NotCurrent j) →
      is_event_for_window c (MEvent.UserEvent none) = false) ∧
    (∀ (c : TrackedWindowContainer) (ev : MEvent),
      c.gl_window = IndeterminateWindowedContext.NoContext →
      is_event_for_window c ev = true) := by
  refine ⟨?_, ?_, ?_, ?_⟩
  · intro c j i we h
    rcases h with h | h <;> simp [is_event_for_window, h]
  · intro c j t h
    rcases h with h | h <;> simp [is_event_for_window, h]
  · intro c j h
    rcases h with h | h <;> simp [is_event_for_window, h]
  · intro c ev h
    cases ev with
    | UserEvent t => simp [is_event_for_window, h]
    | WindowEvent i we => simp [is_event_for_window, h]
    | LoopExiting => simp [is_event_for_window, h]
    | OtherEvent => simp [is_event_for_window, h]

/-- C6 witness: the broadcast conjunct applied at a concrete container. -/
theorem C6_event_matching_witness :
    is_event_for_window denyCont (MEvent.UserEvent none) = false :=
  C6_event_matching.2.2.1 denyCont 5 (Or.inl rfl)

theorem reconcile_fold_not_root (output : List (Nat × ViewportOutput)) :
    ∀ (acc : List Nat × List NewWindowRequest × Nat),
      (∀ r ∈ acc.2.1, r.viewport_id ≠ some ROOT_ID) →
      ∀ r ∈ (output.foldl reconcile_step acc).2.1,
        r.viewport_id ≠ some ROOT_ID := by
  induction output with
  | nil => intro acc h; exact h
  | cons e output ih =>
    intro acc h
    simp only [List.foldl_cons]
    apply ih
    intro r hr
    obtain ⟨set, spawns, tok⟩ := acc
    unfold reconcile_step at hr
    dsimp only at hr
    by_cases hc : e.fst ≠ ROOT_ID ∧ ¬ set.contains e.fst
    · rw [if_pos hc] at hr
      dsimp only at hr
      rcases List.mem_append.mp hr with h' | h'
      · exact h r h'
      · have h'' := List.mem_singleton.mp h'
        rw [h'']
        simp only [NewWindowRequest.new_viewport, NewWindowRequest.viewport_id,
          ne_eq, Option.some.injEq]
        exact hc.1
    · rw [if_neg hc] at hr
      exact h r hr

/-! ## Claim C7 -/

/-- C7: viewport reconciliation for a non-pure-viewport window — with
frame output ids A and B while the registry holds only A, exactly one
request is spawned (for B, carrying the builder, the fresh identity
token, the registry value and the output's deferred-render callback) and
the registry afterwards holds A and B; with frame output id A while the
registry holds A and B, B is removed and nothing is spawned; and the
root viewport id is never spawned. -/
theorem C7_viewport_reconciliation :
    (∀ (A B : Nat) (voA voB : ViewportOutput) (selfid : Nat) (q0 : Bool)
      (fresh : Nat), B ≠ ROOT_ID → A ≠ B →
      viewport_reconcile false selfid [A] [(A, voA), (B, voB)] q0 fresh =
        ([B, A],
         [NewWindowRequest.new_viewport voB.builder fresh voB.builder B [A]
            voB.viewport_ui_cb],
         q0, fresh + 1)) ∧
    (∀ (A B : Nat) (voA : ViewportOutput) (selfid : Nat) (q0 : Bool)
      (fresh : Nat), A ≠ B →
      viewport_reconcile false selfid [A, B] [(A, voA)] q0 fresh =
        ([A], [], q0, fresh)) ∧
    (∀ (has_cb : Bool) (selfid : Nat) (set : List Nat)
      (output : List (Nat × ViewportOutput)) (q0 : Bool) (fresh : Nat),
      ∀ r ∈ (viewport_reconcile has_cb selfid set output q0 fresh).2.1,
        r.viewport_id ≠ some ROOT_ID) := by
  refine ⟨?_, ?_, ?_⟩
  · intro A B voA voB selfid q0 fresh hB hAB
    have hBA : (B == A) = false := by simp [Ne.symm hAB]
    simp [viewport_reconcile, reconcile_step, List.contains, hB, hBA,
      Ne.symm hAB]
  · intro A B voA selfid q0 fresh hAB
    have hBA : (B == A) = false := by simp [Ne.symm hAB]
    simp [viewport_reconcile, reconcile_step, List.contains, hBA,
      Ne.symm hAB]
  · intro has_cb selfid set output q0 fresh r hr
    unfold viewport_reconcile at hr
    exact reconcile_fold_not_root output _ (by intro r h; simp at h) r hr

/-- C7 witness: the spawn scenario at registry [3], output ids 3 and 4. -/
theorem C7_viewport_reconciliation_witness :
    viewport_reconcile false 0 [3]
        [(3, ViewportOutput.mk 0 11 none), (4, ViewportOutput.mk 0 22 (some 7))]
        false 100 =
      ([4, 3],
       [NewWindowRequest.new_viewport 22 100 22 4 [3] (some 7)],
       false, 101) :=
  C7_viewport_reconciliation.1 3 4 (ViewportOutput.mk 0 11 none)
    (ViewportOutput.mk 0 22 (some 7)) 0 false 100 (by decide) (by decide)

/-! ## Claim C5 -/

/-- An environment in which the buffer present (`swap_buffers`) fails. -/
def failSwapEnv : Env :=
  { frame_output := [], swap_ok := false, now := 0, egui_repaint := false }

/-- C5 counterexample: with a failing `swap_buffers`, dispatching a
redraw-request panics (models `gl_window.swap_buffers().unwrap()`):
`handle_event_outer` does not return, so the failure is not
logged-and-ignored and the frame is not merely skipped. -/
theorem C5_counterexample :
    handle_event_outer failSwapEnv true denyCont
      (MEvent.WindowEvent 5 WEvent.RedrawRequested) 100 = none := rfl

/-- C5 (amended): a buffer-present failure during a redraw is fatal — the
redraw step and the whole per-window dispatch panic (return `none`),
because the present's result is unwrapped; the failure is not skipped
and confined to the one frame. -/
theorem C5_swap_failure_fatal (env : Env) (henv : env.swap_ok = false) :
    (∀ (window : Option WindowData) (set : List Nat) (vpid : Nat)
      (vcb : Option Nat) (fresh : Nat),
      redraw_step env window set vpid vcb fresh = none) ∧
    (∀ (root : Bool) (c : TrackedWindowContainer) (i fresh : Nat),
      c.gl_window ≠ IndeterminateWindowedContext.NoContext →
      handle_event_outer env root c
        (MEvent.WindowEvent i WEvent.RedrawRequested) fresh = none) := by
  refine ⟨?_, ?_⟩
  · intro window set vpid vcb fresh
    simp [redraw_step, henv]
  · intro root c i fresh hg
    have hre : redraw_step env c.window c.viewportset c.viewportid
        c.viewportcb fresh = none := by simp [redraw_step, henv]
    have hhe : handle_event env (MEvent.WindowEvent i WEvent.RedrawRequested)
        root c.window c.viewportset c.viewportid c.viewportcb fresh = none := by
      simp [handle_event, hre]
    unfold handle_event_outer
    cases hgw : c.gl_window with
    | NoContext => exact absurd hgw hg
    | PossiblyCurrent j =>
      dsimp only
      rw [handle_event_body_eq, hhe]
    | NotCurrent j =>
      dsimp only
      rw [handle_event_body_eq, hhe]

/-- C5 witness: the dispatch-level conjunct at a concrete container. -/
theorem C5_swap_failure_fatal_witness :
    handle_event_outer failSwapEnv true denyCont
      (MEvent.WindowEvent 9 WEvent.RedrawRequested) 100 = none :=
  (C5_swap_failure_fatal failSwapEnv rfl).2 true denyCont 9 100 (by decide)

/-- Unfolding a successful `do_window_events` into its loop run. -/
theorem do_window_events_elim (env : Env) (fuel : Nat)
    (windows : List TrackedWindowContainer) (event : MEvent) (fresh : Nat)
    (out : List TrackedWindowContainer) (flows : List (Option ControlFlow))
    (h : do_window_events env fuel windows event fresh = some (out, flows)) :
    ∃ nid, dwe_loop env event (root_exists windows) fuel
      { stack := windows.reverse, handled := [], flows := [],
        next_id := fresh } = some (out, flows, nid) := by
  unfold do_window_events at h
  cases hl : dwe_loop env event (root_exists windows) fuel
      { stack := windows.reverse, handled := [], flows := [],
        next_id := fresh } with
  | none => rw [hl] at h; simp at h
  | some r =>
    obtain ⟨o, f, n⟩ := r
    rw [hl] at h
    simp only [Option.some.injEq, Prod.mk.injEq] at h
    exact ⟨n, by rw [h.1, h.2]⟩

/-! ## Claim C1 -/

/-- C1 counterexample: a live container whose holder is `NotCurrent`
(freshly created, never yet dispatched) does not match a window-event
addressed to another window; after `do_window_events` returns it is still
live with its holder `NotCurrent` — not `PossiblyCurrent` as the claim's
consequent asserts for every live container. -/
theorem C1_counterexample :
    do_window_events quietEnv 10 [freshRootCont]
        (MEvent.WindowEvent 7 WEvent.OtherWindowEvent) 100 =
      some ([freshRootCont], []) ∧
    freshRootCont.gl_window.isPossiblyCurrent = false :=
  ⟨rfl, rfl⟩

/-- C1 (amended): a `handle_event_outer` call that returns always leaves
the container's holder `PossiblyCurrent` (custody is restored on every
branch, including the terminate branches); consequently after
`do_window_events` returns, no live container's holder is the empty
placeholder — but a container the event was not for keeps its previous
(possibly `NotCurrent`) holder state. -/
theorem C1_context_custody :
    (∀ (env : Env) (root : Bool) (c : TrackedWindowContainer) (ev : MEvent)
      (fresh : Nat) (c' : TrackedWindowContainer)
      (ctrl : TrackedWindowControl) (fl : Bool) (tok : Nat),
      c.gl_window ≠ IndeterminateWindowedContext.NoContext →
      handle_event_outer env root c ev fresh = some (c', ctrl, fl, tok) →
      c'.gl_window.isPossiblyCurrent = true) ∧
    (∀ (env : Env) (fuel : Nat) (windows : List TrackedWindowContainer)
      (ev : MEvent) (fresh : Nat) (out : List TrackedWindowContainer)
      (flows : List (Option ControlFlow)),
      (∀ x ∈ windows,
        x.gl_window ≠ IndeterminateWindowedContext.NoContext) →
      do_window_events env fuel windows ev fresh = some (out, flows) →
      ∀ x ∈ out, x.gl_window ≠ IndeterminateWindowedContext.NoContext) := by
  refine ⟨?_, ?_⟩
  · intro env root c ev fresh c' ctrl fl tok hne h
    obtain ⟨i, set', _, _, hc'⟩ := heo_some_elim _ _ _ _ _ _ _ _ _ h
    rw [hc']
    rfl
  · intro env fuel windows ev fresh out flows hin h
    obtain ⟨nid, hl⟩ := do_window_events_elim _ _ _ _ _ _ _ h
    refine dwe_loop_no_placeholder env ev (root_exists windows) fuel _ out
      flows nid hl ?_ ?_
    · intro x hx
      exact hin x (List.mem_reverse.mp hx)
    · intro x hx
      simp at hx

/-- C1 witness: the custody-restore conjunct at a concrete dispatch. -/
theorem C1_context_custody_witness :
    (mkContainer (IndeterminateWindowedContext.PossiblyCurrent 5)
      (some (flagWindow true true))).gl_window.isPossiblyCurrent = true :=
  C1_context_custody.1 quietEnv true
    (mkContainer (IndeterminateWindowedContext.PossiblyCurrent 5)
      (some (flagWindow true true)))
    (MEvent.WindowEvent 5 WEvent.OtherWindowEvent) 100
    (mkContainer (IndeterminateWindowedContext.PossiblyCurrent 5)
      (some (flagWindow true true)))
    { requested_control_flow := some ControlFlow.Wait,
      windows_to_create := [] } false 100 (by decide) rfl

/-! ## Claim C3 -/

/-- C3 counterexample: with no root window live, a dispatched non-root
window whose `can_quit` denies is *not* removed from the live collection
— the pass returns it live and reports `Wait` for it. -/
theorem C3_counterexample :
    root_exists [denyCont] = false ∧
    is_event_for_window denyCont
      (MEvent.WindowEvent 5 WEvent.OtherWindowEvent) = true ∧
    do_window_events quietEnv 10 [denyCont]
        (MEvent.WindowEvent 5 WEvent.OtherWindowEvent) 100 =
      some ([denyCont], [some ControlFlow.Wait]) :=
  ⟨rfl, rfl, rfl⟩

/-- C3 (amended): if no root window exists at pass start, every
dispatched container with non-root window-type state has its requested
schedule forced to terminate regardless of event routing; after the pass
such a container survives only if the event was not for it or its
`can_quit` denied — it is removed exactly when dispatched and permitted
to quit. -/
theorem C3_root_gone_propagation :
    (∀ (env : Env) (c : TrackedWindowContainer) (ev : MEvent) (fresh : Nat)
      (c' : TrackedWindowContainer) (ctrl : TrackedWindowControl) (fl : Bool)
      (tok : Nat) (d : WindowData),
      c.window = some d → d.is_root = false →
      handle_event_outer env false c ev fresh = some (c', ctrl, fl, tok) →
      ctrl.requested_control_flow = none) ∧
    (∀ (env : Env) (fuel : Nat) (windows : List TrackedWindowContainer)
      (ev : MEvent) (fresh : Nat) (out : List TrackedWindowContainer)
      (flows : List (Option ControlFlow)),
      root_exists windows = false →
      do_window_events env fuel windows ev fresh = some (out, flows) →
      ∀ x ∈ out, ∀ d, x.window = some d → d.is_root = false →
        is_event_for_window x ev = false ∨ d.can_quit = false) := by
  refine ⟨?_, ?_⟩
  · intro env c ev fresh c' ctrl fl tok d hd hroot h
    obtain ⟨i, set', _, hhe, _⟩ := heo_some_elim _ _ _ _ _ _ _ _ _ h
    obtain ⟨cf0, hcf⟩ := handle_event_requested_force _ _ _ _ _ _ _ _ _ _ _ _
      hhe
    rw [hd, force_root_not_root cf0 d hroot] at hcf
    exact hcf
  · intro env fuel windows ev fresh out flows hroot h
    obtain ⟨nid, hl⟩ := do_window_events_elim _ _ _ _ _ _ _ h
    rw [hroot] at hl
    exact dwe_loop_root_gone env ev fuel _ out flows nid hl
      (by intro x hx; simp at hx)

/-- C3 witness: the forced-terminate conjunct at a concrete dispatch of a
non-root window with no root live. -/
theorem C3_root_gone_propagation_witness :
    (TrackedWindowControl.mk none []).requested_control_flow = none :=
  C3_root_gone_propagation.1 quietEnv denyCont
    (MEvent.WindowEvent 5 WEvent.OtherWindowEvent) 100 denyCont
    (TrackedWindowControl.mk none []) false 100 (flagWindow false false)
    rfl rfl rfl

/-! ## Claim C8 -/

/-- C8: a dispatched window with window-type state that requests
terminate is retained in the live collection with reported schedule
`Wait` when its `can_quit` denies (and it remains in the pass's final
collection); it is dropped — recording `none` — exactly when `can_quit`
permits. -/
theorem C8_can_quit_denial (env : Env) (ev : MEvent) (root : Bool)
    (st : DweState) (w w' : TrackedWindowContainer)
    (ctrl : TrackedWindowControl) (fl : Bool) (tok : Nat) (d : WindowData)
    (hm : is_event_for_window w ev = true)
    (hho : handle_event_outer env root w ev st.next_id =
      some (w', ctrl, fl, tok))
    (hrq : ctrl.requested_control_flow = none)
    (hwd : w'.window = some d) :
    (d.can_quit = false →
      ∃ st', dwe_step env ev root st w = some st' ∧
        st'.handled = w' :: st.handled ∧
        st'.flows = st.flows ++ [some ControlFlow.Wait] ∧
        ∀ fuel out flows nid,
          dwe_loop env ev root fuel st' = some (out, flows, nid) →
          w' ∈ out) ∧
    (d.can_quit = true →
      dwe_step env ev root st w =
        some { st with next_id := tok, flows := st.flows ++ [none] }) := by
  constructor
  · intro hq
    have hstep : dwe_step env ev root st w =
        some (push_adds
          { st with
              next_id := tok,
              flows := st.flows ++ [some ControlFlow.Wait],
              handled := w' :: st.handled }
          ctrl.windows_to_create) := by
      unfold dwe_step
      rw [if_pos hm, hho]
      dsimp only
      rw [hrq]
      dsimp only
      rw [hwd]
      dsimp only
      rw [hq]
      simp
    refine ⟨_, hstep, ?_, ?_, ?_⟩
    · rw [push_adds_handled]
    · rw [push_adds_flows]
    · intro fuel out flows nid hl
      apply dwe_loop_handled_mono env ev root fuel _ out flows nid hl
      rw [push_adds_handled]
      exact List.mem_cons_self _ _
  · intro hq
    unfold dwe_step
    rw [if_pos hm, hho]
    dsimp only
    rw [hrq]
    dsimp only
    rw [hwd]
    dsimp only
    rw [hq]
    simp

/-- C8 witness: the denial conjunct at a concrete dispatch — `denyCont`
requests terminate (no root exists), its `can_quit` is false, and it is
retained with reported schedule `Wait`. -/
theorem C8_can_quit_denial_witness :
    ∃ st', dwe_step quietEnv (MEvent.WindowEvent 5 WEvent.OtherWindowEvent)
        false (DweState.mk [] [] [] 100) denyCont = some st' ∧
      st'.handled = [denyCont] ∧
      st'.flows = [some ControlFlow.Wait] ∧
      ∀ fuel out flows nid,
        dwe_loop quietEnv (MEvent.WindowEvent 5 WEvent.OtherWindowEvent)
          false fuel st' = some (out, flows, nid) → denyCont ∈ out :=
  (C8_can_quit_denial quietEnv (MEvent.WindowEvent 5 WEvent.OtherWindowEvent)
    false (DweState.mk [] [] [] 100) denyCont denyCont
    (TrackedWindowControl.mk none []) false 100 (flagWindow false false)
    rfl rfl rfl rfl).1 rfl

/-! ## Claim C10 -/

/-- C10: `do_window_events` never removes a pure-viewport container —
a dispatched viewport container requesting terminate is pushed back with
reported schedule `Wait`; the number of live pure-viewport containers
never decreases across a pass; `try_quit` performs no teardown for the
viewport variant; and a callback-bearing container whose own id left the
registry receives the implicit quit signal. -/
theorem C10_viewport_never_removed :
    (∀ (env : Env) (ev : MEvent) (root : Bool) (st : DweState)
      (w w' : TrackedWindowContainer) (ctrl : TrackedWindowControl)
      (fl : Bool) (tok : Nat),
      w.window = none →
      is_event_for_window w ev = true →
      handle_event_outer env root w ev st.next_id =
        some (w', ctrl, fl, tok) →
      ctrl.requested_control_flow = none →
      ∃ st', dwe_step env ev root st w = some st' ∧
        st'.handled = w' :: st.handled ∧
        st'.flows = st.flows ++ [some ControlFlow.Wait]) ∧
    (∀ (env : Env) (fuel : Nat) (windows : List TrackedWindowContainer)
      (ev : MEvent) (fresh : Nat) (out : List TrackedWindowContainer)
      (flows : List (Option ControlFlow)),
      do_window_events env fuel windows ev fresh = some (out, flows) →
      countV windows ≤ countV out) ∧
    (∀ c : TrackedWindowContainer, c.window = none →
      try_quit c = (c, false)) ∧
    (∀ (selfid : Nat) (set : List Nat)
      (output : List (Nat × ViewportOutput)) (q0 : Bool) (fresh : Nat),
      set.contains selfid = false →
      (viewport_reconcile true selfid set output q0 fresh).2.2.1 = true) := by
  refine ⟨?_, ?_, ?_, ?_⟩
  · intro env ev root st w w' ctrl fl tok hw hm hho hrq
    obtain ⟨i, set', _, _, hc'⟩ := heo_some_elim _ _ _ _ _ _ _ _ _ hho
    have hwd : w'.window = none := by rw [hc']; exact hw
    have hstep : dwe_step env ev root st w =
        some (push_adds
          { st with
              next_id := tok,
              flows := st.flows ++ [some ControlFlow.Wait],
              handled := w' :: st.handled }
          ctrl.windows_to_create) := by
      unfold dwe_step
      rw [if_pos hm, hho]
      dsimp only
      rw [hrq]
      dsimp only
      rw [hwd]
    refine ⟨_, hstep, ?_, ?_⟩
    · rw [push_adds_handled]
    · rw [push_adds_flows]
  · intro env fuel windows ev fresh out flows h
    obtain ⟨nid, hl⟩ := do_window_events_elim _ _ _ _ _ _ _ h
    have := dwe_loop_countV env ev (root_exists windows) fuel _ out flows nid
      hl
    dsimp only at this
    rw [countV_reverse] at this
    calc countV windows ≤ countV windows + countV [] := Nat.le_add_right _ _
      _ ≤ countV out := this
  · intro c h
    simp [try_quit, h]
  · intro selfid set output q0 fresh h
    simp [viewport_reconcile, h]
    exact Or.inr (by simpa using h)

/-- C10 witness: the retention conjunct at a concrete orphaned viewport
container — its redraw requests terminate (its id left the registry),
yet it is retained with reported schedule `Wait`. -/
theorem C10_viewport_never_removed_witness :
    ∃ st', dwe_step quietEnv (MEvent.WindowEvent 5 WEvent.RedrawRequested)
        true (DweState.mk [] [] [] 100) orphanViewportCont = some st' ∧
      st'.handled = [orphanViewportCont] ∧
      st'.flows = [some ControlFlow.Wait] :=
  C10_viewport_never_removed.1 quietEnv
    (MEvent.WindowEvent 5 WEvent.RedrawRequested) true
    (DweState.mk [] [] [] 100) orphanViewportCont orphanViewportCont
    (TrackedWindowControl.mk none []) false 100 rfl rfl rfl rfl

end EguiMultiwin
